import Mathlib

/-!
Shallow embedding of the ESP-React-Control dashboard core:
the device registry, the WebSocket channel manager (`useWebSocket.ts`),
the optimistic toggle handlers (`DeviceControls.tsx`) and the delete
action (`MqttMessageInput.tsx` / `SmartHomeDashboard`).

JavaScript runtime values are modelled explicitly: a field that may be
`undefined` at runtime is an `Option`; JS truthiness of a possibly
missing boolean is `truthy`; string interpolation of `undefined`
produces the string "undefined".
-/

namespace EspControl

/-- JS truthiness of a possibly-undefined boolean value. -/
def truthy : Option Bool → Bool
  | some b => b
  | none => false

/-- JS string interpolation of a possibly-undefined string. -/
def jsToString : Option String → String
  | some s => s
  | none => "undefined"

/-- A device record as held in the React `devices` state
(`EspDevice` in `types.ts`; fields can be `undefined` at runtime when
they were populated from a frame that omitted them). -/
structure EspDevice where
  deviceId : Option String
  name : Option String
  lightOn : Option Bool
  rgbMode : Option Bool
  commandTopic : Option String
deriving DecidableEq

/-- An inbound WebSocket frame after `JSON.parse`, restricted to the
fields the handler destructures; `none` models an absent field. -/
structure Frame where
  type : Option String
  deviceId : Option String
  name : Option String
  lightOn : Option Bool
  rgbmode : Option Bool
  commandTopic : Option String
deriving DecidableEq

/-- Model of `prevDevices.find(d => d.deviceId === id)`. -/
def findDevice (reg : List EspDevice) (id : Option String) : Option EspDevice :=
  reg.find? (fun d => d.deviceId = id)

/-! ## Optimistic toggle handlers (`DeviceControls.tsx`) -/

/-- The optimistic `setDevices` updater of `handleToggleLight`:
`{ ...d, lightOn: optimisticUpdate, rgbMode: d.lightOn ? d.rgbMode : false }`
where `optimisticUpdate = !device.lightOn` is computed from the
`device` prop snapshot. -/
def toggleLightOptimistic (device : EspDevice) (prev : List EspDevice) : List EspDevice :=
  prev.map fun d =>
    if d.deviceId = device.deviceId then
      { d with lightOn := some (!truthy device.lightOn),
               rgbMode := if truthy d.lightOn then d.rgbMode else some false }
    else d

/-- The rollback `setDevices` updater of `handleToggleLight`:
`{ ...d, lightOn: device.lightOn }` (the pre-optimistic snapshot value). -/
def toggleLightRollback (device : EspDevice) (prev : List EspDevice) : List EspDevice :=
  prev.map fun d =>
    if d.deviceId = device.deviceId then { d with lightOn := device.lightOn } else d

/-- Result of running one toggle handler: final registry, the messages
passed to `publishMQTTMessage` (in order of issue), and the error
notifications raised via `setErrorMessage`. -/
structure ToggleResult where
  registry : List EspDevice
  published : List String
  errors : List String
deriving DecidableEq

/-- Embeds `handleToggleLight` of `DeviceControls.tsx`, with the outcome of the
two possible `publishMQTTMessage` calls supplied as oracles `ok1`, `ok2`
(`true` = the awaited call resolves, `false` = it throws). -/
def handleToggleLight (device : EspDevice) (reg : List EspDevice) (ok1 ok2 : Bool) :
    ToggleResult :=
  let newState := if truthy device.lightOn then "off" else "on"
  let optimistic := toggleLightOptimistic device reg
  if ok1 then
    if !truthy device.lightOn && truthy device.rgbMode then
      if ok2 then
        ⟨optimistic, [newState, "offRGB"], []⟩
      else
        ⟨toggleLightRollback device optimistic, [newState, "offRGB"], ["Failed to toggle light"]⟩
    else
      ⟨optimistic, [newState], []⟩
  else
    ⟨toggleLightRollback device optimistic, [newState], ["Failed to toggle light"]⟩

/-- The optimistic `setDevices` updater of `handleToggleRGB`:
`{ ...d, rgbMode: optimisticRGB, lightOn: d.rgbMode ? d.lightOn : false }`
where `optimisticRGB = !device.rgbMode`. -/
def toggleRGBOptimistic (device : EspDevice) (prev : List EspDevice) : List EspDevice :=
  prev.map fun d =>
    if d.deviceId = device.deviceId then
      { d with rgbMode := some (!truthy device.rgbMode),
               lightOn := if truthy d.rgbMode then d.lightOn else some false }
    else d

/-- The rollback `setDevices` updater of `handleToggleRGB`:
`{ ...d, rgbMode: device.rgbMode }`. -/
def toggleRGBRollback (device : EspDevice) (prev : List EspDevice) : List EspDevice :=
  prev.map fun d =>
    if d.deviceId = device.deviceId then { d with rgbMode := device.rgbMode } else d

/-- Embeds `handleToggleRGB` of `DeviceControls.tsx` with publish outcomes as
oracles. -/
def handleToggleRGB (device : EspDevice) (reg : List EspDevice) (ok1 ok2 : Bool) :
    ToggleResult :=
  let newRGBState := if truthy device.rgbMode then "offRGB" else "onRGB"
  let optimistic := toggleRGBOptimistic device reg
  if ok1 then
    if !truthy device.rgbMode && truthy device.lightOn then
      if ok2 then
        ⟨optimistic, [newRGBState, "off"], []⟩
      else
        ⟨toggleRGBRollback device optimistic, [newRGBState, "off"], ["Failed to toggle RGB mode"]⟩
    else
      ⟨optimistic, [newRGBState], []⟩
  else
    ⟨toggleRGBRollback device optimistic, [newRGBState], ["Failed to toggle RGB mode"]⟩

/-- Two consecutive user power-toggles with all publishes succeeding:
the snapshot for the second invocation is the re-rendered record looked
up in the registry produced by the first. -/
def doubleToggleLight (reg : List EspDevice) (id : Option String) :
    Option (List EspDevice) :=
  match findDevice reg id with
  | none => none
  | some d0 =>
    let r1 := (handleToggleLight d0 reg true true).registry
    match findDevice r1 id with
    | none => none
    | some d1 => some (handleToggleLight d1 r1 true true).registry

/-! ## Real-time channel manager (`useWebSocket.ts`) -/

/-- The hook state of `useWebSocket`: `isConnected`, `reconnectAttempts`
and `errorMessage`, plus `connectingCount`, which counts the
`new WebSocket(...)` constructions (the `Connecting` transitions of the
spec's state machine). -/
structure WSState where
  isConnected : Bool
  reconnectAttempts : Nat
  errorMessage : Option String
  connectingCount : Nat
deriving DecidableEq

def MAX_RECONNECT_ATTEMPTS : Nat := 5

/-- Embeds `connectWebSocket` as the program runs it. The function is a
closure of the render that defined it, so its
`reconnectAttempts >= MAX_RECONNECT_ATTEMPTS` guard reads
`capturedAttempts`, the value of the `reconnectAttempts` const in that
render — not the live hook state. The effect (empty dependency array)
invokes the mount render's instance, and the recursive call from the
`onclose` timer invokes that same instance, so in the program
`capturedAttempts` is always `0`. `setErrorMessage` writes the live
state. -/
def connectWebSocket (capturedAttempts : Nat) (s : WSState) : WSState :=
  if MAX_RECONNECT_ATTEMPTS ≤ capturedAttempts then
    { s with errorMessage := some "Maximum reconnection attempts reached" }
  else
    { s with connectingCount := s.connectingCount + 1 }

/-- Embeds `websocket.onopen`. -/
def handleOpen (s : WSState) : WSState :=
  { s with isConnected := true, reconnectAttempts := 0, errorMessage := none }

/-- Embeds `websocket.onclose` followed by the 5-second reconnect timer
firing with no intervening event. `setIsConnected(false)` and the
functional update `setReconnectAttempts(prev => prev + 1)` write/read
the live state, but the timer guard
`!isConnected && reconnectAttempts < MAX_RECONNECT_ATTEMPTS` reads the
consts captured by the render closure that installed this `onclose`
handler (`capturedConnected`, `capturedAttempts`), and the recursive
`connectWebSocket` it calls is that same render's instance. In the
program both handlers come from the mount render, so the captured
values are always `false` and `0`. -/
def handleClose (capturedConnected : Bool) (capturedAttempts : Nat) (s : WSState) : WSState :=
  let s1 := { s with isConnected := false }
  if !capturedConnected && capturedAttempts < MAX_RECONNECT_ATTEMPTS then
    connectWebSocket capturedAttempts { s1 with reconnectAttempts := s1.reconnectAttempts + 1 }
  else s1

/-- The `name` given to a newly appended registry record:
`data.name || \x60ESP_${deviceId}\x60` (JS `||` takes the default on a
missing or empty `name`). -/
def defaultName (data : Frame) : String :=
  match data.name with
  | some n => if n = "" then "ESP_" ++ jsToString data.deviceId else n
  | none => "ESP_" ++ jsToString data.deviceId

/-- The `setDevices` updater of the upsert branch of
`websocket.onmessage`: update `lightOn`/`rgbMode` in place when a record
with the frame's `deviceId` exists, otherwise append a new record. -/
def upsertDevices (data : Frame) (prev : List EspDevice) : List EspDevice :=
  if prev.any (fun d => d.deviceId = data.deviceId) then
    prev.map fun d =>
      if d.deviceId = data.deviceId then
        { d with lightOn := data.lightOn, rgbMode := data.rgbmode }
      else d
  else
    prev ++ [⟨data.deviceId, some (defaultName data), data.lightOn, data.rgbmode,
             data.commandTopic⟩]

/-- Embeds `websocket.onmessage` on one inbound frame. `none` models a frame on
which `JSON.parse` throws, landing in the `catch` block; `some f` a
successfully parsed object. Returns the hook state and the registry
after the handler runs. -/
def onmessage (parsed : Option Frame) (s : WSState) (reg : List EspDevice) :
    WSState × List EspDevice :=
  match parsed with
  | none => ({ s with errorMessage := some "Error processing WebSocket message" }, reg)
  | some data =>
    if data.type = some "heartbeat" then (s, reg)
    else if data.type = some "delete" then
      (s, reg.filter (fun d => d.deviceId ≠ data.deviceId))
    else
      (s, upsertDevices data reg)

/-! ## Outbound delete (`deleteDevice` in `useWebSocket.ts`,
`confirmDelete` in the dashboard component) -/

/-- The `WebSocket.readyState` values; the channel handle `wsRef.current`
is `Option ReadyState`, `none` standing for a null ref. -/
inductive ReadyState
  | connecting
  | opened
  | closing
  | closed
deriving DecidableEq

/-- Model of `wsRef.current?.readyState === WebSocket.OPEN`. -/
def wsIsOpen : Option ReadyState → Bool
  | some ReadyState.opened => true
  | _ => false

/-- Model of `JSON.stringify({ type: "delete", deviceId })`. -/
def serializeDeleteFrame (id : String) : String :=
  "\x7b\"type\":\"delete\",\"deviceId\":\"" ++ id ++ "\"\x7d"

/-- The dashboard state visible to the delete flow: the registry, the
pending-confirmation id, the hook's error message, the channel handle,
and the frames sent so far over the channel. -/
structure DashState where
  registry : List EspDevice
  deviceToDelete : Option String
  errorMessage : Option String
  ws : Option ReadyState
  sent : List String
deriving DecidableEq

/-- Embeds `deleteDevice` of `useWebSocket.ts`: sends the serialized delete
frame when the channel is open, otherwise only sets the
not-connected error message. -/
def deleteDevice (id : String) (s : DashState) : DashState :=
  if wsIsOpen s.ws then
    { s with sent := s.sent ++ [serializeDeleteFrame id] }
  else
    { s with errorMessage := some "WebSocket is not connected" }

/-- Embeds `confirmDelete` of the dashboard component: if a deletion is
pending, call `deleteDevice` on it and clear the pending id. -/
def confirmDelete (s : DashState) : DashState :=
  match s.deviceToDelete with
  | some id => { deleteDevice id s with deviceToDelete := none }
  | none => s

/-- The `deviceId` uniqueness invariant: no two registry records share a `deviceId`. -/
def uniqueIds (reg : List EspDevice) : Prop :=
  (reg.map (fun d => d.deviceId)).Nodup

instance (reg : List EspDevice) : Decidable (uniqueIds reg) :=
  List.nodupDecidable _

/-! ## Helper lemmas -/

/-- Running `find?` over a `map` that preserves `deviceId` finds the image of
what `find?` finds. -/
theorem findDevice_map (F : EspDevice → EspDevice)
    (hF : ∀ d, (F d).deviceId = d.deviceId) (reg : List EspDevice)
    (id : Option String) :
    findDevice (reg.map F) id = (findDevice reg id).map F := by
  induction reg with
  | nil => rfl
  | cons d tl ih =>
    unfold findDevice at *
    simp only [List.map_cons, List.find?_cons]
    by_cases hd : d.deviceId = id
    · simp [hF, hd]
    · simp [hF, hd, ih]

/-- With both publishes succeeding, the registry `handleToggleLight`
leaves behind is the optimistic update. -/
theorem handleToggleLight_ok_registry (d : EspDevice) (reg : List EspDevice) :
    (handleToggleLight d reg true true).registry = toggleLightOptimistic d reg := by
  unfold handleToggleLight
  by_cases h : (!truthy d.lightOn && truthy d.rgbMode) = true <;> simp [h]

/-- The optimistic power-toggle updater preserves `deviceId`. -/
theorem toggleLightOptimistic_preserves_id (dev d : EspDevice) :
    ((fun d =>
      if d.deviceId = dev.deviceId then
        { d with lightOn := some (!truthy dev.lightOn),
                 rgbMode := if truthy d.lightOn then d.rgbMode else some false }
      else d) d).deviceId = d.deviceId := by
  dsimp only
  split <;> rfl

/-- Looking up the toggled device after the optimistic power-toggle. -/
theorem findDevice_toggleLightOptimistic (dev : EspDevice) (reg : List EspDevice)
    (id : Option String) (d0 : EspDevice) (h : findDevice reg id = some d0)
    (hd : d0.deviceId = dev.deviceId) :
    findDevice (toggleLightOptimistic dev reg) id =
      some { d0 with lightOn := some (!truthy dev.lightOn),
                     rgbMode := if truthy d0.lightOn then d0.rgbMode else some false } := by
  unfold toggleLightOptimistic
  rw [findDevice_map _ (toggleLightOptimistic_preserves_id dev), h]
  simp [hd]

/-- A concrete device used to instantiate the theorems below:
powered off with color mode on. -/
def devLamp : EspDevice := ⟨some "A", some "Lamp", some false, some true, some "t/A"⟩

/-- C1 (counterexample): starting from `powerOn = false`,
`colorModeOn = true`, two successful power-toggles leave
`colorModeOn = false`, not the original `true`. -/
theorem toggle_power_roundtrip_counterexample :
    (doubleToggleLight [devLamp] (some "A")).bind (fun r => findDevice r (some "A")) =
      some ⟨some "A", some "Lamp", some false, some false, some "t/A"⟩ ∧
    ((doubleToggleLight [devLamp] (some "A")).bind
        (fun r => findDevice r (some "A"))).map (fun d => d.rgbMode) ≠
      some devLamp.rgbMode := by
  constructor
  · rfl
  · decide

/-- C1 (amended): two consecutive power-toggles with all publishes
succeeding restore the original `powerOn` value; `colorModeOn` always
ends up `false` (so it is restored exactly when it was not originally
`true`). All other fields are unchanged. -/
theorem toggle_power_roundtrip (reg : List EspDevice) (id : Option String)
    (d0 : EspDevice) (b : Bool) (h : findDevice reg id = some d0)
    (hb : d0.lightOn = some b) :
    ∃ r2 d2, doubleToggleLight reg id = some r2 ∧ findDevice r2 id = some d2 ∧
      d2.lightOn = d0.lightOn ∧ d2.rgbMode = some false ∧
      d2.deviceId = d0.deviceId ∧ d2.name = d0.name ∧
      d2.commandTopic = d0.commandTopic := by
  have hid : d0.deviceId = id := by
    have := List.find?_some h
    exact of_decide_eq_true this
  have h1 : findDevice (toggleLightOptimistic d0 reg) id =
      some { d0 with lightOn := some (!truthy d0.lightOn),
                     rgbMode := if truthy d0.lightOn then d0.rgbMode else some false } :=
    findDevice_toggleLightOptimistic d0 reg id d0 h rfl
  have hr1 : (handleToggleLight d0 reg true true).registry = toggleLightOptimistic d0 reg :=
    handleToggleLight_ok_registry d0 reg
  set d1 : EspDevice :=
    { d0 with lightOn := some (!truthy d0.lightOn),
              rgbMode := if truthy d0.lightOn then d0.rgbMode else some false } with hd1
  have h2 : findDevice (toggleLightOptimistic d1 (toggleLightOptimistic d0 reg)) id =
      some { d1 with lightOn := some (!truthy d1.lightOn),
                     rgbMode := if truthy d1.lightOn then d1.rgbMode else some false } :=
    findDevice_toggleLightOptimistic d1 (toggleLightOptimistic d0 reg) id d1 h1 rfl
  refine ⟨toggleLightOptimistic d1 (toggleLightOptimistic d0 reg),
    { d1 with lightOn := some (!truthy d1.lightOn),
              rgbMode := if truthy d1.lightOn then d1.rgbMode else some false },
    ?_, h2, ?_, ?_, rfl, rfl, rfl⟩
  · unfold doubleToggleLight
    rw [h]
    simp only [hr1, h1, handleToggleLight_ok_registry]
  · simp only [hd1, hb, truthy]
    cases b <;> rfl
  · simp only [hd1, hb, truthy]
    cases b <;> rfl

/-- C1 witness: the amended round-trip theorem applied to the concrete
registry `[devLamp]`. -/
theorem toggle_power_roundtrip_witness :
    findDevice [devLamp] (some "A") = some devLamp ∧ devLamp.lightOn = some false ∧
    ∃ r2 d2, doubleToggleLight [devLamp] (some "A") = some r2 ∧
      findDevice r2 (some "A") = some d2 ∧
      d2.lightOn = devLamp.lightOn ∧ d2.rgbMode = some false ∧
      d2.deviceId = devLamp.deviceId ∧ d2.name = devLamp.name ∧
      d2.commandTopic = devLamp.commandTopic :=
  ⟨rfl, rfl, toggle_power_roundtrip [devLamp] (some "A") devLamp false rfl rfl⟩

/-- The rollback updater writes the snapshot's `lightOn` into every
record with the snapshot's `deviceId`, whatever the registry holds. -/
theorem toggleLightRollback_mem (dev : EspDevice) (reg : List EspDevice) :
    ∀ d ∈ toggleLightRollback dev reg, d.deviceId = dev.deviceId →
      d.lightOn = dev.lightOn := by
  intro d hd hdid
  unfold toggleLightRollback at hd
  rw [List.mem_map] at hd
  obtain ⟨x, hx, hfx⟩ := hd
  by_cases hxid : x.deviceId = dev.deviceId
  · rw [if_pos hxid] at hfx
    rw [← hfx]
  · rw [if_neg hxid] at hfx
    subst hfx
    exact absurd hdid hxid

/-- C2: toggling power on a device with `powerOn = false` and having the
publish fail raises exactly one error notification and leaves the
record's `powerOn` at `false`; moreover the rollback writes the
pre-optimistic snapshot value regardless of what the registry holds at
rollback time. -/
theorem toggle_power_rollback (reg : List EspDevice) (d0 : EspDevice) (ok2 : Bool)
    (hb : d0.lightOn = some false) :
    (handleToggleLight d0 reg false ok2).errors = ["Failed to toggle light"] ∧
    (∀ d ∈ (handleToggleLight d0 reg false ok2).registry,
        d.deviceId = d0.deviceId → d.lightOn = some false) ∧
    ∀ reg' : List EspDevice, ∀ d ∈ toggleLightRollback d0 reg',
        d.deviceId = d0.deviceId → d.lightOn = d0.lightOn := by
  refine ⟨rfl, ?_, fun reg' => toggleLightRollback_mem d0 reg'⟩
  have hreg : (handleToggleLight d0 reg false ok2).registry =
      toggleLightRollback d0 (toggleLightOptimistic d0 reg) := rfl
  rw [hreg]
  intro d hd hdid
  rw [toggleLightRollback_mem d0 _ d hd hdid, hb]

/-- C2 witness: the rollback theorem at the concrete registry
`[devLamp]`. -/
theorem toggle_power_rollback_witness :
    devLamp.lightOn = some false ∧
    ((handleToggleLight devLamp [devLamp] false true).errors = ["Failed to toggle light"] ∧
      (∀ d ∈ (handleToggleLight devLamp [devLamp] false true).registry,
          d.deviceId = devLamp.deviceId → d.lightOn = some false) ∧
      ∀ reg' : List EspDevice, ∀ d ∈ toggleLightRollback devLamp reg',
          d.deviceId = devLamp.deviceId → d.lightOn = devLamp.lightOn) :=
  ⟨rfl, toggle_power_rollback [devLamp] devLamp true rfl⟩

/-- The hook state at mount time, after the effect runs the mount
render's `connectWebSocket()` (captured `reconnectAttempts` is `0`). -/
def wsInitial : WSState := connectWebSocket 0 ⟨false, 0, none, 0⟩

/-- One close event as the program executes it: both guards read the
mount render's captured closure values `isConnected = false`,
`reconnectAttempts = 0`. -/
def programClose : WSState → WSState := handleClose false 0

/-- Every program-level close performs another `Connecting` transition
and leaves the error notification untouched: the captured guard values
`false`/`0` make both guards pass unconditionally. -/
theorem programClose_step (s : WSState) :
    (programClose s).connectingCount = s.connectingCount + 1 ∧
    (programClose s).errorMessage = s.errorMessage :=
  ⟨rfl, rfl⟩

/-- C3 (code bug): the claim states the intended design (terminal
`GivenUp` after 5 closures, per `MAX_RECONNECT_ATTEMPTS` and the spec),
but the code's guards read `reconnectAttempts`/`isConnected` from the
mount render's closure, which are permanently `0`/`false`. After 5
consecutive closures the live counter shows 5 yet a 6th `Connecting`
transition has already happened, no give-up notification is ever raised,
and every further closure keeps constructing new WebSockets forever. -/
theorem reconnect_never_gives_up :
    (programClose^[5] wsInitial).errorMessage = none ∧
    (programClose^[5] wsInitial).reconnectAttempts = MAX_RECONNECT_ATTEMPTS ∧
    (programClose^[5] wsInitial).connectingCount = 6 ∧
    ∀ k : Nat,
      (programClose^[k] (programClose^[5] wsInitial)).connectingCount = 6 + k ∧
      (programClose^[k] (programClose^[5] wsInitial)).errorMessage = none := by
  refine ⟨rfl, rfl, rfl, fun k => ?_⟩
  induction k with
  | zero => exact ⟨rfl, rfl⟩
  | succ n ih =>
    rw [Function.iterate_succ_apply']
    refine ⟨?_, ?_⟩
    · rw [(programClose_step _).1, ih.1, Nat.add_assoc]
    · rw [(programClose_step _).2, ih.2]

/-- A parseable frame carrying no `type` and no `deviceId`. -/
def frameNoId : Frame := ⟨none, none, none, some true, none, none⟩

/-- C4 (counterexample): a parseable frame missing `deviceId` is not
caught — it alters the registry (appending a record with an undefined
`deviceId`) and raises no error notification. -/
theorem malformed_frame_counterexample :
    (onmessage (some frameNoId) ⟨true, 0, none, 1⟩ []).2 ≠ ([] : List EspDevice) ∧
    (onmessage (some frameNoId) ⟨true, 0, none, 1⟩ []).1.errorMessage = none := by
  constructor
  · decide
  · rfl

/-- C4 (amended): a frame on which JSON parsing fails is caught and
surfaced as a transient error notification with the registry untouched;
but a parseable frame missing `deviceId` is not caught: it is processed
as an upsert, appending a record with undefined `deviceId` (when none
exists yet) and raising no notification. Neither case crashes the
handler. -/
theorem malformed_frame_handling (s : WSState) (reg : List EspDevice) (f : Frame)
    (hdev : f.deviceId = none) (ht : f.type ≠ some "heartbeat")
    (hd : f.type ≠ some "delete") (hreg : ∀ d ∈ reg, d.deviceId ≠ none) :
    onmessage none s reg =
      ({ s with errorMessage := some "Error processing WebSocket message" }, reg) ∧
    (onmessage (some f) s reg).1 = s ∧
    (onmessage (some f) s reg).2 =
      reg ++ [⟨none, some (defaultName f), f.lightOn, f.rgbmode, f.commandTopic⟩] := by
  have hany : reg.any (fun d => d.deviceId = (none : Option String)) = false := by
    rw [List.any_eq_false]
    intro d hdm
    simp only [decide_eq_true_eq]
    exact hreg d hdm
  refine ⟨rfl, ?_, ?_⟩
  · simp [onmessage, ht, hd]
  · simp [onmessage, ht, hd, upsertDevices, hany, hdev]

/-- C4 witness: the amended theorem at the concrete frame `frameNoId`
and registry `[devLamp]`. -/
theorem malformed_frame_handling_witness :
    frameNoId.deviceId = none ∧ frameNoId.type ≠ some "heartbeat" ∧
    frameNoId.type ≠ some "delete" ∧ (∀ d ∈ [devLamp], d.deviceId ≠ none) ∧
    (onmessage none ⟨true, 0, none, 1⟩ [devLamp] =
        (⟨true, 0, some "Error processing WebSocket message", 1⟩, [devLamp]) ∧
      (onmessage (some frameNoId) ⟨true, 0, none, 1⟩ [devLamp]).1 = ⟨true, 0, none, 1⟩ ∧
      (onmessage (some frameNoId) ⟨true, 0, none, 1⟩ [devLamp]).2 =
        [devLamp] ++ [⟨none, some (defaultName frameNoId), frameNoId.lightOn,
          frameNoId.rgbmode, frameNoId.commandTopic⟩]) :=
  ⟨rfl, by decide, by decide, by decide,
    malformed_frame_handling ⟨true, 0, none, 1⟩ [devLamp] frameNoId rfl
      (by decide) (by decide) (by decide)⟩

/-- A concrete device with both power and color mode on. -/
def devRGBOn : EspDevice := ⟨some "B", some "Strip", some true, some true, some "t/B"⟩

/-- C5 (counterexample): disabling color mode while power is on issues
only `publish("offRGB")`; the additional `publish("off")` the claim
requires is not issued. -/
theorem toggle_rgb_publishes_counterexample :
    (handleToggleRGB devRGBOn [devRGBOn] true true).published = ["offRGB"] ∧
    (handleToggleRGB devRGBOn [devRGBOn] true true).published ≠ ["offRGB", "off"] := by
  constructor
  · rfl
  · decide

/-- C5 (amended): disabling color mode issues only the single
`"offRGB"` publish regardless of the power state; the additional
`"off"` publish is issued when *enabling* color mode while power was
on. -/
theorem toggle_rgb_publishes (d : EspDevice) (reg : List EspDevice) :
    (truthy d.rgbMode = true →
      (handleToggleRGB d reg true true).published = ["offRGB"]) ∧
    (truthy d.rgbMode = false → truthy d.lightOn = true →
      (handleToggleRGB d reg true true).published = ["onRGB", "off"]) ∧
    (truthy d.rgbMode = false → truthy d.lightOn = false →
      (handleToggleRGB d reg true true).published = ["onRGB"]) := by
  refine ⟨fun h => ?_, fun h h2 => ?_, fun h h2 => ?_⟩
  · simp [handleToggleRGB, h]
  · simp [handleToggleRGB, h, h2]
  · simp [handleToggleRGB, h, h2]

/-- C5 witness: the amended theorem at the concrete device `devRGBOn`
(color mode on, power on), first arm. -/
theorem toggle_rgb_publishes_witness :
    truthy devRGBOn.rgbMode = true ∧
    (handleToggleRGB devRGBOn [devRGBOn] true true).published = ["offRGB"] :=
  ⟨rfl, (toggle_rgb_publishes devRGBOn [devRGBOn]).1 rfl⟩

/-- A concrete existing record and an upsert frame for the same id that
carries a new `name` and `commandTopic`. -/
def devOld : EspDevice := ⟨some "A", some "old", some false, none, some "t1"⟩

def frameNew : Frame := ⟨none, some "A", some "new", some true, some false, some "t2"⟩

/-- C6 (counterexample): an upsert frame for an existing record carrying
`name = "new"` and `commandTopic = "t2"` leaves the record's `name` at
`"old"` and its `commandTopic` at `"t1"` — those fields are not
merged. -/
theorem upsert_merge_counterexample :
    upsertDevices frameNew [devOld] =
      [⟨some "A", some "old", some true, some false, some "t1"⟩] ∧
    (upsertDevices frameNew [devOld]).map (fun d => d.name) ≠ [frameNew.name] := by
  constructor
  · rfl
  · decide

/-- C6 (amended): when a record with the frame's `deviceId` exists, only
`lightOn` and `rgbMode` (from the frame's `lightOn` and `rgbmode`) are
written into the matching records, which keep their positions; `name`
and `commandTopic` are left unchanged even when the frame supplies them.
Otherwise a new record is appended, with `name` synthesized by
`defaultName` (which yields `"ESP_" ++ deviceId` when the frame carries
no usable name). -/
theorem upsert_merge_semantics (reg : List EspDevice) (f : Frame) :
    ((∃ d ∈ reg, d.deviceId = f.deviceId) →
      (upsertDevices f reg).length = reg.length ∧
      ∀ i (h : i < reg.length) (h2 : i < (upsertDevices f reg).length),
        (upsertDevices f reg).get ⟨i, h2⟩ =
          if (reg.get ⟨i, h⟩).deviceId = f.deviceId then
            { reg.get ⟨i, h⟩ with lightOn := f.lightOn, rgbMode := f.rgbmode }
          else reg.get ⟨i, h⟩) ∧
    ((∀ d ∈ reg, d.deviceId ≠ f.deviceId) →
      upsertDevices f reg =
        reg ++ [⟨f.deviceId, some (defaultName f), f.lightOn, f.rgbmode,
          f.commandTopic⟩]) := by
  constructor
  · rintro ⟨d, hd, hdid⟩
    have hany : reg.any (fun x => x.deviceId = f.deviceId) = true :=
      List.any_eq_true.mpr ⟨d, hd, decide_eq_true hdid⟩
    have hmap : upsertDevices f reg = reg.map (fun d =>
        if d.deviceId = f.deviceId then
          { d with lightOn := f.lightOn, rgbMode := f.rgbmode }
        else d) := by
      unfold upsertDevices
      simp [hany]
    constructor
    · rw [hmap, List.length_map]
    · intro i h h2
      simp only [hmap, List.get_eq_getElem, List.getElem_map]
  · intro hne
    have hany : reg.any (fun x => x.deviceId = f.deviceId) = false :=
      List.any_eq_false.mpr (fun d hd => by simpa using hne d hd)
    unfold upsertDevices
    simp [hany]

/-- C6 witness: the amended theorem's append arm at the empty
registry. -/
theorem upsert_merge_semantics_witness :
    (∀ d ∈ ([] : List EspDevice), d.deviceId ≠ frameNew.deviceId) ∧
    upsertDevices frameNew [] =
      [] ++ [⟨frameNew.deviceId, some (defaultName frameNew), frameNew.lightOn,
        frameNew.rgbmode, frameNew.commandTopic⟩] :=
  ⟨by simp, (upsert_merge_semantics [] frameNew).2 (by simp)⟩

/-- Concrete dashboard states with an open and a never-created
channel. -/
def dashOpen : DashState := ⟨[devLamp], none, none, some ReadyState.opened, []⟩

def dashNull : DashState := ⟨[devLamp], none, none, none, []⟩

/-- C7: `deleteDevice` serializes `{type:"delete", deviceId}` onto the
channel exactly when the channel is in the `Open` ready state; in every
other state it sends nothing, queues nothing, and surfaces the
not-connected error to the caller. -/
theorem delete_send_iff_open (s : DashState) (id : String) :
    (wsIsOpen s.ws = true →
      deleteDevice id s = { s with sent := s.sent ++ [serializeDeleteFrame id] }) ∧
    (wsIsOpen s.ws = false →
      deleteDevice id s = { s with errorMessage := some "WebSocket is not connected" }) := by
  constructor <;> intro h <;> simp [deleteDevice, h]

/-- C7 witness: both arms at concrete open and null-channel states. -/
theorem delete_send_iff_open_witness :
    (wsIsOpen dashOpen.ws = true ∧
      deleteDevice "A" dashOpen =
        { dashOpen with sent := dashOpen.sent ++ [serializeDeleteFrame "A"] }) ∧
    (wsIsOpen dashNull.ws = false ∧
      deleteDevice "A" dashNull =
        { dashNull with errorMessage := some "WebSocket is not connected" }) :=
  ⟨⟨rfl, (delete_send_iff_open dashOpen "A").1 rfl⟩,
   ⟨rfl, (delete_send_iff_open dashNull "A").2 rfl⟩⟩

/-- A heartbeat frame. -/
def heartbeatFrame : Frame := ⟨some "heartbeat", none, none, none, none, none⟩

/-- C9: a heartbeat frame leaves the registry and the whole hook state —
including `reconnectAttempts` and `isConnected` — unchanged. -/
theorem heartbeat_noop (f : Frame) (s : WSState) (reg : List EspDevice)
    (h : f.type = some "heartbeat") :
    onmessage (some f) s reg = (s, reg) := by
  simp [onmessage, h]

/-- C9 witness: the heartbeat no-op at a concrete state and registry. -/
theorem heartbeat_noop_witness :
    heartbeatFrame.type = some "heartbeat" ∧
    onmessage (some heartbeatFrame) ⟨false, 3, some "x", 2⟩ [devLamp] =
      (⟨false, 3, some "x", 2⟩, [devLamp]) :=
  ⟨rfl, heartbeat_noop heartbeatFrame ⟨false, 3, some "x", 2⟩ [devLamp] rfl⟩

/-- C10: the user delete action is the server-confirmed variant:
`confirmDelete` never mutates the registry, and the record with the
deleted id disappears exactly when the server's streaming delete frame
for it is processed (records with other ids survive). -/
theorem delete_is_server_confirmed (s : DashState) (st : WSState) (f : Frame) :
    (confirmDelete s).registry = s.registry ∧
    (f.type = some "delete" →
      (∀ d ∈ (onmessage (some f) st s.registry).2, d.deviceId ≠ f.deviceId) ∧
      ∀ d ∈ s.registry, d.deviceId ≠ f.deviceId →
        d ∈ (onmessage (some f) st s.registry).2) := by
  constructor
  · cases hS : s.deviceToDelete with
    | none => simp [confirmDelete, hS]
    | some id =>
      simp only [confirmDelete, hS, deleteDevice]
      split <;> rfl
  · intro h
    have hreg2 : (onmessage (some f) st s.registry).2 =
        List.filter (fun d => d.deviceId ≠ f.deviceId) s.registry := by
      simp only [onmessage]
      rw [h]
      rw [if_neg (by decide : ¬(some "delete" : Option String) = some "heartbeat")]
      rw [if_pos rfl]
    rw [hreg2]
    constructor
    · intro d hd
      exact of_decide_eq_true (List.mem_filter.mp hd).2
    · intro d hd hne
      exact List.mem_filter.mpr ⟨hd, decide_eq_true hne⟩

/-- A delete frame for device "A". -/
def deleteFrameA : Frame := ⟨some "delete", some "A", none, none, none, none⟩

/-- C10 witness: the theorem at a concrete dashboard state and delete
frame. -/
theorem delete_is_server_confirmed_witness :
    deleteFrameA.type = some "delete" ∧
    ((confirmDelete dashOpen).registry = dashOpen.registry ∧
      (deleteFrameA.type = some "delete" →
        (∀ d ∈ (onmessage (some deleteFrameA) ⟨true, 0, none, 1⟩ dashOpen.registry).2,
            d.deviceId ≠ deleteFrameA.deviceId) ∧
        ∀ d ∈ dashOpen.registry, d.deviceId ≠ deleteFrameA.deviceId →
          d ∈ (onmessage (some deleteFrameA) ⟨true, 0, none, 1⟩ dashOpen.registry).2)) :=
  ⟨rfl, delete_is_server_confirmed dashOpen ⟨true, 0, none, 1⟩ deleteFrameA⟩

/-- A `deviceId`-preserving map keeps the ids unique. -/
theorem uniqueIds_map (F : EspDevice → EspDevice)
    (hF : ∀ d, (F d).deviceId = d.deviceId) (reg : List EspDevice)
    (h : uniqueIds reg) : uniqueIds (reg.map F) := by
  unfold uniqueIds at *
  rw [List.map_map]
  have hcomp : ((fun d => d.deviceId) ∘ F) = fun d : EspDevice => d.deviceId :=
    funext hF
  rw [hcomp]
  exact h

/-- Filtering keeps the ids unique. -/
theorem uniqueIds_filter (p : EspDevice → Bool) (reg : List EspDevice)
    (h : uniqueIds reg) : uniqueIds (reg.filter p) :=
  h.sublist (List.Sublist.map _ (List.filter_sublist reg))

/-- The upsert updater keeps the ids unique. -/
theorem uniqueIds_upsert (f : Frame) (reg : List EspDevice)
    (h : uniqueIds reg) : uniqueIds (upsertDevices f reg) := by
  unfold upsertDevices
  by_cases hany : reg.any (fun d => d.deviceId = f.deviceId) = true
  · rw [if_pos hany]
    refine uniqueIds_map _ (fun d => ?_) reg h
    dsimp only
    split <;> rfl
  · rw [if_neg hany]
    unfold uniqueIds at *
    rw [List.map_append, List.nodup_append]
    refine ⟨h, List.nodup_singleton _, ?_⟩
    intro a ha hb
    rw [List.map_singleton, List.mem_singleton] at hb
    subst hb
    rw [List.mem_map] at ha
    obtain ⟨d, hd, hdid⟩ := ha
    exact hany (List.any_eq_true.mpr ⟨d, hd, decide_eq_true hdid⟩)

/-- C8: `deviceId` uniqueness is an invariant of the registry: it is
preserved by processing any inbound frame (heartbeat, delete, upsert,
or an unparseable one) and by the optimistic toggles and their
rollbacks. -/
theorem registry_unique_ids_invariant (reg : List EspDevice) (st : WSState)
    (h : uniqueIds reg) :
    (∀ pf : Option Frame, uniqueIds (onmessage pf st reg).2) ∧
    ∀ dv : EspDevice,
      uniqueIds (toggleLightOptimistic dv reg) ∧
      uniqueIds (toggleLightRollback dv reg) ∧
      uniqueIds (toggleRGBOptimistic dv reg) ∧
      uniqueIds (toggleRGBRollback dv reg) := by
  constructor
  · intro pf
    match pf with
    | none => exact h
    | some f =>
      by_cases h1 : f.type = some "heartbeat"
      · simp only [onmessage, if_pos h1]
        exact h
      · by_cases h2 : f.type = some "delete"
        · simp only [onmessage, if_neg h1, if_pos h2]
          exact uniqueIds_filter _ reg h
        · simp only [onmessage, if_neg h1, if_neg h2]
          exact uniqueIds_upsert f reg h
  · intro dv
    refine ⟨?_, ?_, ?_, ?_⟩ <;>
      · refine uniqueIds_map _ (fun d => ?_) reg h
        dsimp only
        split <;> rfl

/-- C8 witness: the invariant theorem at a concrete two-device
registry. -/
theorem registry_unique_ids_invariant_witness :
    uniqueIds [devLamp, devRGBOn] ∧
    ((∀ pf : Option Frame,
        uniqueIds (onmessage pf ⟨true, 0, none, 1⟩ [devLamp, devRGBOn]).2) ∧
      ∀ dv : EspDevice,
        uniqueIds (toggleLightOptimistic dv [devLamp, devRGBOn]) ∧
        uniqueIds (toggleLightRollback dv [devLamp, devRGBOn]) ∧
        uniqueIds (toggleRGBOptimistic dv [devLamp, devRGBOn]) ∧
        uniqueIds (toggleRGBRollback dv [devLamp, devRGBOn])) :=
  ⟨by decide,
    registry_unique_ids_invariant [devLamp, devRGBOn] ⟨true, 0, none, 1⟩ (by decide)⟩

end EspControl
